import Mathlib

/-!
Shallow embedding of the cerasim simulation (src/cerasim) used to check the
frozen claims.  Quantities that the Python code holds as floats are modelled
as exact rationals (ℚ); integer unit counts are ℕ.  Each definition names the
source symbol it embeds.
-/

namespace Cerasim

/-! ### Configuration (src/cerasim/config.py) -/

/-- config.BATCH_SIZE_UNITS (config.py line 9). -/
def BATCH_SIZE_UNITS : ℕ := 50

/-- config.QUALITY grade_a_rate = 0.75 (config.py line 257), as an exact rational. -/
def grade_a_rate : ℚ := 3 / 4

/-- config.QUALITY grade_b_rate = 0.15 (config.py line 258). -/
def grade_b_rate : ℚ := 3 / 20

/-- config.QUALITY reject_rate = 0.10 (config.py line 259). -/
def reject_rate : ℚ := 1 / 10

/-- One entry of config.SUPPLIERS (config.py lines 161-217). -/
structure SupplierCfg where
  delivery_qty_t    : ℚ
  lead_time_mean_hr : ℚ
  lead_time_std_hr  : ℚ
  reliability       : ℚ
  unit_cost_eur_t   : ℚ
  reorder_point_t   : ℚ
  max_stock_t       : ℚ
deriving Repr, DecidableEq

/-- config.SUPPLIERS kaolin (config.py lines 195-205); reliability 0.82 = 41/50. -/
def kaolinCfg : SupplierCfg :=
  { delivery_qty_t := 20, lead_time_mean_hr := 72, lead_time_std_hr := 16,
    reliability := 41 / 50, unit_cost_eur_t := 110, reorder_point_t := 22,
    max_stock_t := 100 }

/-- config.SUPPLIERS clay (config.py lines 162-172); reliability 0.92 = 23/25. -/
def clayCfg : SupplierCfg :=
  { delivery_qty_t := 50, lead_time_mean_hr := 36, lead_time_std_hr := 6,
    reliability := 23 / 25, unit_cost_eur_t := 85, reorder_point_t := 65,
    max_stock_t := 260 }

/-- config.SCENARIOS supply_disruption kaolin_disruption window
    (15*24, 50*24) = (360, 1200) hours (config.py line 296). -/
def kaolin_disruption_window : ℚ × ℚ := (360, 1200)

/-! ### Data model (src/cerasim/models.py) -/

/-- models._short_id (models.py lines 9-10): uuid4().hex[:8].upper().  The
uuid4 hex digest comes from operating-system entropy, which is independent of
the seed passed to random.seed; it is modelled as the explicit list of the
digest's characters, of which _short_id keeps the first 8, uppercased. -/
def shortId (entropy : List Char) : String := ⟨(entropy.take 8).map Char.toUpper⟩

/-- models.ProductionBatch (models.py lines 13-48).  Times are simulation
hours; quantities are integer sanitary units. -/
structure ProductionBatch where
  batch_id       : String
  product        : String
  quantity_units : ℕ
  created_at     : ℚ
  casting_done   : Option ℚ := none
  demolded_at    : Option ℚ := none
  fettled_at     : Option ℚ := none
  glazing_done   : Option ℚ := none
  firing_done    : Option ℚ := none
  finished_at    : Option ℚ := none
  grade_a_units  : ℕ := 0
  grade_b_units  : ℕ := 0
  reject_units   : ℕ := 0
  leak_test_pass : ℕ := 0
  flush_test_pass : ℕ := 0
deriving Repr, DecidableEq

/-- models.ProductionBatch.saleable_units (models.py lines 46-48). -/
def ProductionBatch.saleable_units (b : ProductionBatch) : ℕ :=
  b.grade_a_units + b.grade_b_units

/-- models.CustomerOrder (models.py lines 51-82). -/
structure CustomerOrder where
  order_id       : String
  customer       : String
  product        : String
  quantity_units : ℕ
  is_express     : Bool
  created_at     : ℚ
  due_at         : ℚ
  unit_price     : ℚ
  fulfilled_qty  : ℕ := 0
  fulfilled_at   : Option ℚ := none
deriving Repr, DecidableEq

/-- models.SupplierDelivery (models.py lines 85-104). -/
structure SupplierDelivery where
  delivery_id     : String
  supplier_name   : String
  material        : String
  quantity_tonnes : ℚ
  unit_cost_eur_t : ℚ
  ordered_at      : ℚ
  delivered_at    : ℚ
  on_time         : Bool
deriving Repr, DecidableEq

/-- models.SupplierDelivery.lead_time_hr (models.py lines 102-104). -/
def SupplierDelivery.lead_time_hr (d : SupplierDelivery) : ℚ :=
  d.delivered_at - d.ordered_at

/-- A stockout event dict as built in factory.order_fulfilment
(factory.py lines 512-516): keys time, product, quantity_units. -/
structure StockoutEvent where
  time           : ℚ
  product        : String
  quantity_units : ℕ
deriving Repr, DecidableEq

/-! ### Finishing quality split (factory.py lines 417-428, claim C4)

`int(batch.quantity_units * rate)` truncates toward zero, i.e. takes the floor
for nonnegative arguments.  The rates 0.75 / 0.15 / 0.10 are modelled as the
exact rationals 3/4, 3/20, 1/10; at the batch sizes the program uses the
Python float products round to the same floor values. -/

/-- factory.finishing: grade_a_units = int(quantity * 0.75) (factory.py line 418). -/
def gradeAUnits (q : ℕ) : ℕ := 3 * q / 4

/-- factory.finishing: grade_b_units = int(quantity * 0.15) (factory.py line 419). -/
def gradeBUnits (q : ℕ) : ℕ := 3 * q / 20

/-- factory.finishing: reject_units = int(quantity * 0.10) (factory.py line 420). -/
def rejectUnits (q : ℕ) : ℕ := q / 10

/-- Claim C4: for every batch quantity, after the finishing quality split the
recorded grade-A, grade-B and reject unit counts sum to the batch quantity up
to the integer flooring applied to each share (the three floors lose strictly
less than 3 units in total and never overshoot), and the configured quality
rates sum to 1. -/
theorem C4_quality_split_sums (q : ℕ) :
    gradeAUnits q + gradeBUnits q + rejectUnits q ≤ q
    ∧ q < gradeAUnits q + gradeBUnits q + rejectUnits q + 3
    ∧ grade_a_rate + grade_b_rate + reject_rate = 1 := by
  refine ⟨?_, ?_, by norm_num [grade_a_rate, grade_b_rate, reject_rate]⟩
  · unfold gradeAUnits gradeBUnits rejectUnits
    omega
  · unfold gradeAUnits gradeBUnits rejectUnits
    omega

/-! ### MetricsCollector stage / stall logs (src/cerasim/metrics.py, claim C9)

metrics.MetricsCollector.__init__ initialises the per-stage dictionaries with
the tile-era stage names, while factory.py calls the record helpers with the
sanitary-era stage names.  Python dict lookup on a missing key raises
KeyError; the embedded helpers return Except.error in that case. -/

/-- Keys of MetricsCollector.stage_log as initialised (metrics.py lines 34-36). -/
def stageLogKeys : List String := ["body_prep", "forming", "glazing", "kiln", "finishing"]

/-- Keys of MetricsCollector.stall_log as initialised (metrics.py lines 39-42). -/
def stallLogKeys : List String := ["body_prep", "glazing"]

/-- The stage keys factory.py actually passes to record_stage
(factory.py lines 278, 306, 326, 346, 378, 398, 440). -/
def factoryStageKeysPassed : List String :=
  ["slip_prep", "casting", "demolding", "fettling", "glazing", "kiln", "finishing"]

/-- The stage keys factory.py actually passes to record_stall
(factory.py lines 261, 365). -/
def factoryStallKeysPassed : List String := ["slip_prep", "glazing"]

/-- The stage_log dictionary, modelled as an association list. -/
abbrev StageLog := List (String × List (ℚ × ℕ))

/-- MetricsCollector.stage_log initial value (metrics.py lines 34-36). -/
def initStageLog : StageLog := stageLogKeys.map (fun s => (s, []))

/-- MetricsCollector.record_stage (metrics.py lines 49-50):
self.stage_log[stage].append((now, qty)); KeyError when the key is absent. -/
def recordStage (log : StageLog) (stage : String) (now : ℚ) (qty : ℕ) :
    Except String StageLog :=
  if (List.lookup stage log).isSome then
    .ok (log.map (fun p => if p.1 = stage then (p.1, p.2 ++ [(now, qty)]) else p))
  else
    .error "KeyError"

/-- The stall_log dictionary, modelled as an association list. -/
abbrev StallLog := List (String × List ℚ)

/-- MetricsCollector.stall_log initial value (metrics.py lines 39-42). -/
def initStallLog : StallLog := stallLogKeys.map (fun s => (s, []))

/-- MetricsCollector.record_stall (metrics.py lines 52-57): look up
self.stall_log[stage] (KeyError when absent), then append now unless an entry
less than one hour old is already last (de-bounce). -/
def recordStall (log : StallLog) (stage : String) (now : ℚ) : Except String StallLog :=
  match List.lookup stage log with
  | none => .error "KeyError"
  | some entries =>
      let entries2 :=
        match entries.getLast? with
        | none => entries ++ [now]
        | some last => if now - last ≥ 1 then entries ++ [now] else entries
      .ok (log.map (fun p => if p.1 = stage then (p.1, entries2) else p))

/-! ### Order-KPI block of compute_kpis (metrics.py lines 91-115, claim C5)

With a non-empty order list the block evaluates `o.quantity_m2` (line 93), an
attribute CustomerOrder does not define (models.py gives it quantity_units),
so it raises AttributeError before computing anything.  With an empty order
list the else-branch (lines 111-115) sets every listed key, including
otd_rate_pct, to 0.0. -/

/-- The order-derived KPI entries of the compute_kpis result dict. -/
structure OrderKpis where
  total_orders       : ℚ
  total_ordered      : ℚ
  total_fulfilled    : ℚ
  fill_rate_pct      : ℚ
  complete_pct       : ℚ
  otd_rate_pct       : ℚ
  stockout_events    : ℚ
  partFulfils        : ℚ
  avg_lead_time_days : ℚ
deriving Repr, DecidableEq

/-- All order KPIs zero, as produced by the orders-empty else-branch
(metrics.py lines 111-115). -/
def zeroOrderKpis : OrderKpis :=
  { total_orders := 0, total_ordered := 0, total_fulfilled := 0,
    fill_rate_pct := 0, complete_pct := 0, otd_rate_pct := 0,
    stockout_events := 0, partFulfils := 0, avg_lead_time_days := 0 }

/-- The AttributeError raised by `sum(o.quantity_m2 for o in orders)`
(metrics.py line 93) on the first order: CustomerOrder has no quantity_m2. -/
def quantityM2AttrError : String := "AttributeError: CustomerOrder has no attribute quantity_m2"

/-- The order block of MetricsCollector.compute_kpis (metrics.py lines 91-115). -/
def computeOrderKpis (orders : List CustomerOrder) : Except String OrderKpis :=
  match orders with
  | [] => .ok zeroOrderKpis
  | _ :: _ => .error quantityM2AttrError

/-! ### Supplier-performance KPI block (metrics.py lines 164-175, claim C10) -/

/-- The supplier-performance KPI entries of the compute_kpis result dict. -/
structure SupplierKpis where
  total_deliveries          : ℕ
  avg_supplier_lead_time_hr : ℚ
  on_time_delivery_pct      : ℚ
deriving Repr, DecidableEq

/-- The supplier block of MetricsCollector.compute_kpis (metrics.py lines
164-175): delivery count, mean lead time, on-time percentage, else zeros. -/
def supplierKpis (ds : List SupplierDelivery) : SupplierKpis :=
  if ds.isEmpty then
    { total_deliveries := 0, avg_supplier_lead_time_hr := 0, on_time_delivery_pct := 0 }
  else
    { total_deliveries := ds.length
    , avg_supplier_lead_time_hr := (ds.map SupplierDelivery.lead_time_hr).sum / ds.length
    , on_time_delivery_pct := (ds.countP (fun d => d.on_time) : ℚ) / ds.length * 100 }

/-! ### Supplier delivery process (factory.py lines 199-234, claims C8, C10, C2) -/

/-- factory._supplier_delivery lead-time sampling (factory.py lines 210-216):
lead = max(4, Normal(mean, std)); when the on-time draw fails, multiply by a
Uniform(1.25, 2.50) draw.  The Normal and Uniform draws are the explicit
arguments normal_draw and late_mult. -/
def supplierLeadTime (on_time : Bool) (normal_draw late_mult : ℚ) : ℚ :=
  let lead := max 4 normal_draw
  if on_time then lead else lead * late_mult

/-- factory._supplier_delivery on-time draw (factory.py lines 213-214):
on_time = (random.random() < reliability * supplier_reliability_factor),
with r the uniform-[0,1) draw. -/
def onTimeDraw (r reliability rel_factor : ℚ) : Bool :=
  decide (r < reliability * rel_factor)

/-- Result of one delivery arrival at the factory gate. -/
structure ArrivalResult where
  new_level : ℚ
  record    : SupplierDelivery
deriving Repr, DecidableEq

/-- factory._supplier_delivery arrival (factory.py lines 220-233): put
min(delivery_qty, capacity - level) tonnes (skipping the put when that is not
positive) and append a SupplierDelivery record; the record id comes from the
models.py default factory DEL-<uuid4 slice>. -/
def deliveryArrival (cfg : SupplierCfg) (supplierName material : String)
    (entropy : List Char) (capacity level ordered_at now : ℚ) (on_time : Bool) :
    ArrivalResult :=
  let space := capacity - level
  let qty := min cfg.delivery_qty_t space
  { new_level := if qty > 0 then level + qty else level
  , record :=
    { delivery_id := "DEL-" ++ shortId entropy
    , supplier_name := supplierName
    , material := material
    , quantity_tonnes := qty
    , unit_cost_eur_t := cfg.unit_cost_eur_t
    , ordered_at := ordered_at
    , delivered_at := now
    , on_time := on_time } }

/-! ### Order fulfilment (factory.py lines 498-518, claim C7)

A fulfilment worker reads avail = fg[product].level and branches.  SimPy
containers take the requested amount synchronously at the get call when it is
available, so the two get branches decrement the finished-goods level by
exactly the requested amount. -/

/-- Outcome of one pick by factory.order_fulfilment. -/
structure FulfilOutcome where
  fg_level        : ℕ
  fulfilled_qty   : ℕ
  fulfilled_at    : Option ℚ
  partFulfilDelta : ℕ
  stockout        : Option StockoutEvent
deriving Repr, DecidableEq

/-- factory.order_fulfilment loop body (factory.py lines 499-518), for one
order, given avail = fg[order.product].level at the moment of pick. -/
def orderFulfilStep (avail : ℕ) (o : CustomerOrder) (now : ℚ) : FulfilOutcome :=
  if avail ≥ o.quantity_units then
    -- yield fg.get(order.quantity_units); order.fulfilled_qty = quantity
    { fg_level := avail - o.quantity_units, fulfilled_qty := o.quantity_units,
      fulfilled_at := some now, partFulfilDelta := 0, stockout := none }
  else if avail > 0 then
    -- yield fg.get(avail); order.fulfilled_qty = avail; partial_fulfils += 1
    { fg_level := 0, fulfilled_qty := avail,
      fulfilled_at := some now, partFulfilDelta := 1, stockout := none }
  else
    -- stockout event appended; fulfilled_qty keeps its default 0
    { fg_level := avail, fulfilled_qty := 0,
      fulfilled_at := some now, partFulfilDelta := 0,
      stockout := some { time := now, product := o.product,
                         quantity_units := o.quantity_units } }

/-! ### Supply monitor (factory.py lines 173-197, claims C1, C6) -/

/-- What one supply_monitor check does for one material. -/
inductive MonitorAction
  | skipDisrupted
  | spawnOrder
  | idle
deriving Repr, DecidableEq

/-- Result of one supply_monitor check for one material. -/
structure MonitorOutcome where
  action                 : MonitorAction
  disruption_hours_delta : ℚ
  pending_after          : ℤ
deriving Repr, DecidableEq

/-- One iteration of the per-material body of factory.supply_monitor
(factory.py lines 182-197) at virtual time now: during an active kaolin
disruption window add 4 disruption hours and skip; otherwise spawn a
delivery (incrementing the pending counter) exactly when the stock is below
the scaled reorder point and fewer than 2 orders are pending. -/
def monitorTick (disruption : Option (ℚ × ℚ)) (material : String)
    (now level reorder_point ssf : ℚ) (pending : ℤ) : MonitorOutcome :=
  let orderCheck : MonitorOutcome :=
    if level < reorder_point * ssf ∧ pending < 2 then
      { action := .spawnOrder, disruption_hours_delta := 0, pending_after := pending + 1 }
    else
      { action := .idle, disruption_hours_delta := 0, pending_after := pending }
  match disruption with
  | none => orderCheck
  | some (dStart, dEnd) =>
      if material = "kaolin" ∧ dStart ≤ now ∧ now ≤ dEnd then
        { action := .skipDisrupted, disruption_hours_delta := 4, pending_after := pending }
      else orderCheck

/-! ### Replenishment in-flight protocol (claim C1)

factory.register_processes (factory.py lines 568-571) starts the monitor and
spawns one bootstrap _supplier_delivery per material WITHOUT touching
_pending_replen; every completing delivery decrements _pending_replen
(factory.py line 234); the monitor increments it before spawning
(factory.py lines 192-197) only while it is < 2.  The protocol below tracks,
for one material, the pending counter together with the number of delivery
processes actually in flight. -/

/-- Pending counter and in-flight delivery-process count for one material. -/
structure ReplenState where
  pending  : ℤ
  inflight : ℕ
deriving Repr, DecidableEq

/-- State right after register_processes: the bootstrap delivery for the
material is in flight, _pending_replen is still 0 (factory.py lines 111,
569-571). -/
def replenInit : ReplenState := { pending := 0, inflight := 1 }

/-- The two events that change the protocol state of one material
(safety-stock factor ssf, supplier config cfg):
supply_monitor spawning a delivery when the observed container level is below
the scaled reorder point and pending < 2 (factory.py lines 191-197), and a
delivery process finishing, which decrements pending (factory.py line 234). -/
inductive ReplenStep (cfg : SupplierCfg) (ssf : ℚ) : ReplenState → ReplenState → Prop
  | monitorSpawn (s : ReplenState) (level : ℚ)
      (hlow : level < cfg.reorder_point_t * ssf) (hp : s.pending < 2) :
      ReplenStep cfg ssf s { pending := s.pending + 1, inflight := s.inflight + 1 }
  | deliveryDone (s : ReplenState) (h1 : 1 ≤ s.inflight) :
      ReplenStep cfg ssf s { pending := s.pending - 1, inflight := s.inflight - 1 }

/-! ### Slip-preparation stock acquisition under SimPy scheduling (claim C3)

factory.slip_preparation (factory.py lines 255-268) checks that every
raw-material level meets the per-batch need and then runs
`for m, qty: yield self.raw_mat[m].get(qty)`.  SimPy semantics embedded here:

* a Container.get call decrements the level synchronously at call time when
  the amount is available; otherwise the caller joins the container's wait
  queue with no scheduled resumption;
* a successful get still suspends the calling process at the `yield`: its
  resumption is appended to the event queue and runs after every event that
  was already scheduled for the same instant (FIFO order);
* a process runs without interruption between consecutive yields.

Hence the check and the FIRST get are one synchronous segment, but between
consecutive gets the worker is suspended and other ready processes run.  The
model below is the two-worker instance of this protocol (MACHINES slip_prep
count = 2, factory.py lines 574-575), each worker needing `needs[k]` of
material k per batch, both resumed at the same instant in registration
order. -/

/-- Phase of one slip-preparation worker inside the acquisition loop. -/
inductive WPhase
  | checking
  | waitGet (k : ℕ)
  | blockedGet (k : ℕ)
  | acquired
  | stalled
deriving Repr, DecidableEq

/-- All required material levels meet the per-batch need
(factory.py lines 257-260).  The counterexample instance below uses
whole-tonne quantities, which Python floats represent exactly; the
scheduling argument does not depend on the numeric type. -/
def checkAll (needs levels : List ℤ) : Bool :=
  (needs.zip levels).all (fun p => decide (p.1 ≤ p.2))

/-- Take needs[k] out of material k (the synchronous part of Container.get). -/
def decAt (needs levels : List ℤ) (k : ℕ) : List ℤ :=
  levels.set k (levels.getD k 0 - needs.getD k 0)

/-- Issue the get for material k: on success the level drops at once and the
worker suspends awaiting its resumption event (token := true); an
unsatisfiable get leaves the worker in the container's wait queue with no
token; past the last material the worker has acquired the whole batch. -/
def issueGet (needs levels : List ℤ) (k : ℕ) : List ℤ × WPhase × Bool :=
  if k = needs.length then (levels, .acquired, false)
  else if needs.getD k 0 ≤ levels.getD k 0 then
    (decAt needs levels k, .waitGet (k + 1), true)
  else (levels, .blockedGet k, false)

/-- One synchronous segment of a worker: from `checking`, run the
availability check (factory.py lines 257-260) and, when it passes, issue the
first get in the same segment; from `waitGet k`, the worker has just been
resumed by the success event of get k-1 and issues get k.  A failed check
sends the worker to a one-hour poll timeout (factory.py lines 261-262). -/
def runSegment (needs levels : List ℤ) : WPhase → List ℤ × WPhase × Bool
  | .checking =>
      if checkAll needs levels then issueGet needs levels 0
      else (levels, .stalled, false)
  | .waitGet k => issueGet needs levels k
  | ph => (levels, ph, false)

/-- Global state: material levels, each worker's phase, and the FIFO event
queue of scheduled worker resumptions (false = first-registered worker). -/
structure SlipState where
  levels : List ℤ
  phaseA : WPhase
  phaseB : WPhase
  queue  : List Bool
deriving Repr, DecidableEq

/-- One scheduler dispatch: pop the front event and run that worker's
synchronous segment; a fresh resumption event goes to the back of the queue. -/
def slipStep (needs : List ℤ) (s : SlipState) : SlipState :=
  match s.queue with
  | [] => s
  | w :: rest =>
      let ph := if w then s.phaseB else s.phaseA
      let out := runSegment needs s.levels ph
      let queue2 := if out.2.2 then rest ++ [w] else rest
      if w then { levels := out.1, phaseA := s.phaseA, phaseB := out.2.1, queue := queue2 }
      else { levels := out.1, phaseA := out.2.1, phaseB := s.phaseB, queue := queue2 }

/-- Per-batch needs of the counterexample instance: 1 tonne of material 0 and
2 tonnes of material 1 per worker. -/
def slipNeeds : List ℤ := [1, 2]

/-- Both workers enter the check at the same instant (as at registration,
factory.py lines 574-575) with stocks 2 and 3: enough for one batch each of
material 0, enough for only one batch total of material 1. -/
def slipInit : SlipState :=
  { levels := [2, 3], phaseA := .checking, phaseB := .checking,
    queue := [false, true] }

/-! ### Run reproducibility (claims C2)

All simulation draws go through the `random` module seeded once with the run
seed (factory.py line 66), so for a fixed (scenario, seed, config) the
sequence of seeded draws is the same in every run; record identifiers,
however, come from uuid4 (models.py lines 9-10), i.e. from operating-system
entropy that is NOT derived from the seed.  A run is therefore modelled as a
function of the seeded draw list plus an entropy stream. -/

/-- factory.demand_generator order id ORD-%04d of the running counter
(factory.py line 478): deterministic, no uuid involved. -/
def orderIdOfCounter (n : ℕ) : String :=
  "ORD-" ++ (if n < 10 then "000" else if n < 100 then "00"
             else if n < 1000 then "0" else "") ++ toString n

/-- The ProductionBatch constructed by factory.pressure_casting
(factory.py lines 299-304); batch_id is the models.py default factory
_short_id() applied to the next uuid4 entropy. -/
def mkProductionBatch (entropy : List Char) (product : String) (now : ℚ) :
    ProductionBatch :=
  { batch_id := shortId entropy, product := product,
    quantity_units := BATCH_SIZE_UNITS, created_at := now,
    casting_done := some now }

/-- The CustomerOrder constructed by factory.demand_generator
(factory.py lines 477-486), with every stochastic argument already drawn from
the seeded stream. -/
def mkCustomerOrder (counter : ℕ) (customer product : String) (qty : ℕ)
    (is_express : Bool) (now lead_days unit_price : ℚ) : CustomerOrder :=
  { order_id := orderIdOfCounter counter, customer := customer,
    product := product, quantity_units := qty, is_express := is_express,
    created_at := now, due_at := now + lead_days * 24,
    unit_price := unit_price }

/-- Erase the uuid4-derived identifier of a batch record. -/
def stripBatchId (b : ProductionBatch) : ProductionBatch := { b with batch_id := "" }

/-- Erase the uuid4-derived identifier of a delivery record. -/
def stripDeliveryId (d : SupplierDelivery) : SupplierDelivery := { d with delivery_id := "" }

/-- The seeded draws that determine one produced batch. -/
structure BatchDraw where
  product : String
  time    : ℚ
deriving Repr, DecidableEq

/-- The seeded draws and container state that determine one delivery record. -/
structure DeliveryDraw where
  cfg           : SupplierCfg
  supplier_name : String
  material      : String
  capacity      : ℚ
  level         : ℚ
  ordered_at    : ℚ
  now           : ℚ
  on_time       : Bool
deriving Repr, DecidableEq

/-- The seeded draws that determine one customer order. -/
structure OrderDraw where
  customer   : String
  product    : String
  qty        : ℕ
  is_express : Bool
  now        : ℚ
  lead_days  : ℚ
  unit_price : ℚ
deriving Repr, DecidableEq

/-- Batch log of a run: the i-th batch creation consumes the i-th uuid4
entropy value. -/
def buildBatchLogAux (i : ℕ) (ds : List BatchDraw) (e : ℕ → List Char) :
    List ProductionBatch :=
  match ds with
  | [] => []
  | d :: tl => mkProductionBatch (e i) d.product d.time :: buildBatchLogAux (i + 1) tl e

/-- Batch log of a run with seeded draws ds and entropy stream e. -/
def buildBatchLog (ds : List BatchDraw) (e : ℕ → List Char) : List ProductionBatch :=
  buildBatchLogAux 0 ds e

/-- Delivery log of a run: the i-th delivery record consumes the i-th uuid4
entropy value. -/
def buildDeliveryLogAux (i : ℕ) (ds : List DeliveryDraw) (e : ℕ → List Char) :
    List SupplierDelivery :=
  match ds with
  | [] => []
  | d :: tl =>
      (deliveryArrival d.cfg d.supplier_name d.material (e i) d.capacity
        d.level d.ordered_at d.now d.on_time).record
      :: buildDeliveryLogAux (i + 1) tl e

/-- Delivery log of a run with seeded draws ds and entropy stream e. -/
def buildDeliveryLog (ds : List DeliveryDraw) (e : ℕ → List Char) : List SupplierDelivery :=
  buildDeliveryLogAux 0 ds e

/-- Order log of a run: demand_generator numbers orders with its own counter
and never reads the entropy stream (the uuid default of order_id is
overridden, factory.py line 478). -/
def buildOrderLogAux (i : ℕ) (ds : List OrderDraw) : List CustomerOrder :=
  match ds with
  | [] => []
  | d :: tl =>
      mkCustomerOrder (i + 1) d.customer d.product d.qty d.is_express
        d.now d.lead_days d.unit_price
      :: buildOrderLogAux (i + 1) tl

/-- Order log of a run; the entropy stream argument is taken and ignored,
exactly as the source never consumes uuid values for orders. -/
def buildOrderLog (ds : List OrderDraw) (_e : ℕ → List Char) : List CustomerOrder :=
  buildOrderLogAux 0 ds

/-! ## Theorems for the claims -/

/-- Claim C1 (refuted, code bug): the pending-replenishment counter does NOT
count every spawned delivery process — the bootstrap deliveries of
register_processes (factory.py lines 569-571) are spawned without
incrementing _pending_replen — so a state with 3 delivery processes in
flight for one material is reachable: while the bootstrap kaolin delivery is
still travelling, two consecutive monitor checks each see low stock and
pending < 2 and spawn.  This contradicts the supply_monitor docstring
"A maximum of 2 in-flight orders per material prevents over-ordering"
(factory.py line 177). -/
theorem C1_three_inflight_reachable :
    ∃ s : ReplenState,
      Relation.ReflTransGen (ReplenStep kaolinCfg 1) replenInit s ∧ 2 < s.inflight := by
  have h1 : ReplenStep kaolinCfg 1 replenInit
      { pending := replenInit.pending + 1, inflight := replenInit.inflight + 1 } :=
    ReplenStep.monitorSpawn replenInit 21 (by norm_num [kaolinCfg])
      (by norm_num [replenInit])
  have h2 : ReplenStep kaolinCfg 1
      { pending := replenInit.pending + 1, inflight := replenInit.inflight + 1 }
      { pending := replenInit.pending + 1 + 1,
        inflight := replenInit.inflight + 1 + 1 } :=
    ReplenStep.monitorSpawn _ 21 (by norm_num [kaolinCfg]) (by norm_num [replenInit])
  exact ⟨_, Relation.ReflTransGen.head h1 (Relation.ReflTransGen.single h2),
    by norm_num [replenInit]⟩

/-- Claim C3 (refuted, code bug): in the two-worker slip-preparation instance
with per-batch needs (1, 2) and stocks (2, 3), both workers' checks succeed
(after 2 scheduler dispatches both are in waitGet 1, i.e. each passed the
availability check and took material 0), yet after 4 dispatches the
second-registered worker is blocked on its get of material 1 — the first
worker consumed the checked stock during the suspension that SimPy inserts
between consecutive yielded gets — while the first worker acquires its full
batch and the event queue drains, leaving the blocked worker waiting for a
replenishment put.  This contradicts the source comment "Safe: we checked
all levels; no yield between checks and gets" (factory.py lines 265-266) and
the claimed invariant that no get ever blocks after a successful check. -/
theorem C3_checked_get_blocks_after_check :
    ((slipStep slipNeeds)^[2] slipInit).phaseB = WPhase.waitGet 1
    ∧ ((slipStep slipNeeds)^[4] slipInit).phaseB = WPhase.blockedGet 1
    ∧ ((slipStep slipNeeds)^[5] slipInit).phaseA = WPhase.acquired
    ∧ ((slipStep slipNeeds)^[5] slipInit).queue = [] := by
  decide

/-- Claim C5 (refuted, code bug): when there are no orders at all, the order
block of compute_kpis (metrics.py lines 111-115) reports otd_rate_pct = 0,
not 100 as the spec's "OTD defaults to 100" requires (the numerator-based
order KPIs are indeed all zero there); and with at least one order the block
raises AttributeError at `sum(o.quantity_m2 for o in orders)` (metrics.py
line 93) because CustomerOrder defines quantity_units, not quantity_m2, so
the 100-default branch of line 103 is unreachable. -/
theorem C5_otd_rate_zero_without_orders :
    computeOrderKpis [] = Except.ok zeroOrderKpis
    ∧ zeroOrderKpis.otd_rate_pct = 0
    ∧ (0 : ℚ) ≠ 100
    ∧ ∀ (o : CustomerOrder) (os : List CustomerOrder),
        computeOrderKpis (o :: os) = Except.error quantityM2AttrError :=
  ⟨rfl, rfl, by norm_num, fun _ _ => rfl⟩

/-- Claim C6 (confirmed): a supply-monitor check for kaolin at a virtual time
inside a configured disruption window never spawns a delivery process, adds
exactly 4 to the disruption-hours counter, and leaves the pending counter
unchanged — regardless of the stock level and pending value; moreover the
bootstrap spawns of register_processes happen at virtual time 0, which lies
strictly before the start of the configured window (360, 1200). -/
theorem C6_no_kaolin_spawn_inside_window
    (dStart dEnd now level rp ssf : ℚ) (pending : ℤ)
    (h1 : dStart ≤ now) (h2 : now ≤ dEnd) :
    (monitorTick (some (dStart, dEnd)) "kaolin" now level rp ssf pending).action
        ≠ MonitorAction.spawnOrder
    ∧ (monitorTick (some (dStart, dEnd)) "kaolin" now level rp ssf
        pending).disruption_hours_delta = 4
    ∧ (monitorTick (some (dStart, dEnd)) "kaolin" now level rp ssf
        pending).pending_after = pending
    ∧ ¬ kaolin_disruption_window.1 ≤ 0 := by
  simp only [monitorTick]
  rw [if_pos (show True ∧ dStart ≤ now ∧ now ≤ dEnd from ⟨trivial, h1, h2⟩)]
  exact ⟨(fun h => nomatch h), rfl, rfl, by norm_num [kaolin_disruption_window]⟩

/-- Witness for C6: at time 400 inside the window (360, 1200), with stock 10
far below the kaolin reorder point 22 and no pending order, the monitor
still does not spawn. -/
theorem C6_no_kaolin_spawn_inside_window_witness :
    (monitorTick (some (360, 1200)) "kaolin" 400 10 22 1 0).action
      ≠ MonitorAction.spawnOrder :=
  (C6_no_kaolin_spawn_inside_window 360 1200 400 10 22 1 0
    (by norm_num) (by norm_num)).1

/-- Claim C7 (confirmed): for every order pick with avail the finished-goods
level at the moment of pick, the fulfilment step takes and fulfils exactly
min(avail, quantity) — quantity when avail ≥ quantity, avail when
0 < avail < quantity (with the partial counter bumped), nothing on a
stockout, where a stockout event (time, product, quantity) is recorded; in
all cases fulfilled_qty ≤ quantity, fulfilled_qty ∈ {0, avail, quantity},
and fulfilled_at is set to the pick time. -/
theorem C7_fulfilment_three_way_split (avail : ℕ) (o : CustomerOrder) (now : ℚ) :
    (orderFulfilStep avail o now).fulfilled_qty = min avail o.quantity_units
    ∧ (orderFulfilStep avail o now).fulfilled_qty ≤ o.quantity_units
    ∧ ((orderFulfilStep avail o now).fulfilled_qty = 0
        ∨ (orderFulfilStep avail o now).fulfilled_qty = avail
        ∨ (orderFulfilStep avail o now).fulfilled_qty = o.quantity_units)
    ∧ (orderFulfilStep avail o now).fg_level
        = avail - min avail o.quantity_units
    ∧ (orderFulfilStep avail o now).stockout
        = (if avail = 0 ∧ 0 < o.quantity_units
           then some { time := now, product := o.product,
                       quantity_units := o.quantity_units }
           else none)
    ∧ (orderFulfilStep avail o now).partFulfilDelta
        = (if 0 < avail ∧ avail < o.quantity_units then 1 else 0)
    ∧ (orderFulfilStep avail o now).fulfilled_at = some now := by
  unfold orderFulfilStep
  by_cases h1 : avail ≥ o.quantity_units
  · rw [if_pos h1]
    dsimp only
    rw [if_neg (show ¬(avail = 0 ∧ 0 < o.quantity_units) by omega),
        if_neg (show ¬(0 < avail ∧ avail < o.quantity_units) by omega)]
    exact ⟨by omega, by omega, by omega, by omega, rfl, rfl, rfl⟩
  · by_cases h2 : avail > 0
    · rw [if_neg h1, if_pos h2]
      dsimp only
      rw [if_neg (show ¬(avail = 0 ∧ 0 < o.quantity_units) by omega),
          if_pos (show 0 < avail ∧ avail < o.quantity_units by omega)]
      exact ⟨by omega, by omega, by omega, by omega, rfl, rfl, rfl⟩
    · rw [if_neg h1, if_neg h2]
      dsimp only
      rw [if_pos (show avail = 0 ∧ 0 < o.quantity_units by omega),
          if_neg (show ¬(0 < avail ∧ avail < o.quantity_units) by omega)]
      exact ⟨by omega, by omega, by omega, by omega, rfl, rfl, rfl⟩

/-- Claim C9 (refuted, code bug): the stage keys factory.py passes to the
metrics helpers are NOT all members of the dictionaries
MetricsCollector.__init__ creates: record_stage("slip_prep", ...) and
record_stall("slip_prep") hit keys absent from stage_log
(body_prep/forming/glazing/kiln/finishing) and stall_log
(body_prep/glazing), so the dictionary lookup raises KeyError — the model
returns Except.error — the first time a stage-1 worker stalls or completes
a batch.  The keys casting, demolding and fettling are missing as well. -/
theorem C9_stage_key_lookup_fails :
    recordStage initStageLog "slip_prep" 8 BATCH_SIZE_UNITS = Except.error "KeyError"
    ∧ recordStall initStallLog "slip_prep" 3 = Except.error "KeyError"
    ∧ "slip_prep" ∈ factoryStageKeysPassed
    ∧ "slip_prep" ∉ stageLogKeys
    ∧ "casting" ∉ stageLogKeys
    ∧ "demolding" ∉ stageLogKeys
    ∧ "fettling" ∉ stageLogKeys
    ∧ "slip_prep" ∈ factoryStallKeysPassed
    ∧ "slip_prep" ∉ stallLogKeys := by
  exact ⟨rfl, rfl, by decide, by decide, by decide, by decide, by decide,
    by decide, by decide⟩

/-- Claim C8 (confirmed): the sampled lead time is max(4, Normal draw) for an
on-time delivery and that value multiplied by the Uniform(1.25, 2.50) draw
for a late one, so it is always at least 4; consequently every delivery
record has delivered_at = ordered_at + lead ≥ ordered_at and
delivered_at - ordered_at ≥ 4. -/
theorem C8_delivery_lead_time_bounds (on_time : Bool) (n u ordered : ℚ)
    (hu1 : 5 / 4 ≤ u) (hu2 : u ≤ 5 / 2) :
    4 ≤ supplierLeadTime on_time n u
    ∧ supplierLeadTime true n u = max 4 n
    ∧ supplierLeadTime false n u = max 4 n * u
    ∧ ∀ (cfg : SupplierCfg) (sn m : String) (e : List Char) (cap lvl : ℚ),
        (deliveryArrival cfg sn m e cap lvl ordered
            (ordered + supplierLeadTime on_time n u) on_time).record.ordered_at
          ≤ (deliveryArrival cfg sn m e cap lvl ordered
              (ordered + supplierLeadTime on_time n u) on_time).record.delivered_at
        ∧ 4 ≤ (deliveryArrival cfg sn m e cap lvl ordered
                (ordered + supplierLeadTime on_time n u) on_time).record.delivered_at
              - (deliveryArrival cfg sn m e cap lvl ordered
                (ordered + supplierLeadTime on_time n u) on_time).record.ordered_at := by
  have h4 : (4 : ℚ) ≤ max 4 n := le_max_left _ _
  have hlead : 4 ≤ supplierLeadTime on_time n u := by
    unfold supplierLeadTime
    cases on_time with
    | true => rw [if_pos rfl]; exact h4
    | false =>
        simp only [Bool.false_eq_true, if_false]
        calc (4 : ℚ) ≤ max 4 n := h4
          _ = max 4 n * 1 := by ring
          _ ≤ max 4 n * u := by
              apply mul_le_mul_of_nonneg_left (by linarith)
              linarith
  refine ⟨hlead, by simp [supplierLeadTime], by simp [supplierLeadTime], ?_⟩
  intro cfg sn m e cap lvl
  constructor
  · show ordered ≤ ordered + supplierLeadTime on_time n u
    linarith
  · show 4 ≤ (ordered + supplierLeadTime on_time n u) - ordered
    linarith

/-- Witness for C8: a late delivery with Normal draw 0 and late multiplier 2
has lead time max(4,0)*2 = 8 ≥ 4. -/
theorem C8_delivery_lead_time_bounds_witness :
    4 ≤ supplierLeadTime false 0 2 :=
  (C8_delivery_lead_time_bounds false 0 2 0 (by norm_num) (by norm_num)).1

/-- Helper: the on-time flag stored in an arrival record is the sampled
flag, read off the definition of deliveryArrival. -/
theorem deliveryArrival_record_on_time (cfg : SupplierCfg) (sn m : String)
    (e : List Char) (cap lvl o t : ℚ) (ot : Bool) :
    (deliveryArrival cfg sn m e cap lvl o t ot).record.on_time = ot := rfl

/-- Helper: the lead time of an arrival record is arrival time minus order
time, read off the definition of deliveryArrival. -/
theorem deliveryArrival_record_lead (cfg : SupplierCfg) (sn m : String)
    (e : List Char) (cap lvl o t : ℚ) (ot : Bool) :
    (deliveryArrival cfg sn m e cap lvl o t ot).record.lead_time_hr = t - o := rfl

/-- Helper: an arrival record with the uuid-derived id erased does not depend
on the entropy. -/
theorem stripDeliveryId_arrival (cfg : SupplierCfg) (sn m : String)
    (e : List Char) (cap lvl o t : ℚ) (ot : Bool) :
    stripDeliveryId (deliveryArrival cfg sn m e cap lvl o t ot).record
      = { delivery_id := "", supplier_name := sn, material := m,
          quantity_tonnes := min cfg.delivery_qty_t (cap - lvl),
          unit_cost_eur_t := cfg.unit_cost_eur_t, ordered_at := o,
          delivered_at := t, on_time := ot } := rfl

/-- Helper: a batch record with the uuid-derived id erased does not depend on
the entropy. -/
theorem stripBatchId_mk (e : List Char) (product : String) (now : ℚ) :
    stripBatchId (mkProductionBatch e product now)
      = { batch_id := "", product := product,
          quantity_units := BATCH_SIZE_UNITS, created_at := now,
          casting_done := some now } := rfl

/-- Helper: appending one record to a non-degenerate delivery log extends the
three supplier KPIs by exactly that record's contribution. -/
theorem supplierKpis_append_singleton (ds : List SupplierDelivery)
    (r : SupplierDelivery) :
    supplierKpis (ds ++ [r])
      = { total_deliveries := ds.length + 1
        , avg_supplier_lead_time_hr :=
            ((ds.map SupplierDelivery.lead_time_hr).sum + r.lead_time_hr)
              / ((ds.length : ℚ) + 1)
        , on_time_delivery_pct :=
            ((ds.countP (fun d => d.on_time) : ℚ) + (if r.on_time then 1 else 0))
              / ((ds.length : ℚ) + 1) * 100 } := by
  have hne : ¬((ds ++ [r]).isEmpty = true) := by cases ds <;> simp
  unfold supplierKpis
  rw [if_neg hne]
  cases hr : r.on_time <;>
    simp [List.length_append, List.map_append, List.sum_append,
      List.countP_append, List.countP_cons, hr]

/-- Claim C10 (confirmed): a delivery arriving at a full raw-material
container (level = capacity) leaves the level unchanged and performs no put,
yet appends a SupplierDelivery record with quantity_tonnes = 0, and the
supplier-performance KPI block counts that record in total_deliveries and in
the average-lead-time and on-time-percentage aggregates. -/
theorem C10_full_container_delivery_counted (cfg : SupplierCfg)
    (sn m : String) (e : List Char) (cap ordered now : ℚ) (ot : Bool)
    (ds : List SupplierDelivery) (hdq : 0 ≤ cfg.delivery_qty_t) :
    (deliveryArrival cfg sn m e cap cap ordered now ot).new_level = cap
    ∧ (deliveryArrival cfg sn m e cap cap ordered now ot).record.quantity_tonnes = 0
    ∧ (supplierKpis (ds ++ [(deliveryArrival cfg sn m e cap cap ordered now
        ot).record])).total_deliveries = ds.length + 1
    ∧ (supplierKpis (ds ++ [(deliveryArrival cfg sn m e cap cap ordered now
        ot).record])).avg_supplier_lead_time_hr
        = ((ds.map SupplierDelivery.lead_time_hr).sum + (now - ordered))
            / ((ds.length : ℚ) + 1)
    ∧ (supplierKpis (ds ++ [(deliveryArrival cfg sn m e cap cap ordered now
        ot).record])).on_time_delivery_pct
        = ((ds.countP (fun d => d.on_time) : ℚ) + (if ot then 1 else 0))
            / ((ds.length : ℚ) + 1) * 100 := by
  have h0 : min cfg.delivery_qty_t 0 = 0 := min_eq_right hdq
  have hrec : (deliveryArrival cfg sn m e cap cap ordered now ot).record
      = { delivery_id := "DEL-" ++ shortId e, supplier_name := sn, material := m,
          quantity_tonnes := 0, unit_cost_eur_t := cfg.unit_cost_eur_t,
          ordered_at := ordered, delivered_at := now, on_time := ot } := by
    simp [deliveryArrival, h0]
  have hlvl : (deliveryArrival cfg sn m e cap cap ordered now ot).new_level = cap := by
    simp [deliveryArrival, h0]
  refine ⟨hlvl, by rw [hrec], ?_, ?_, ?_⟩
  · rw [hrec, supplierKpis_append_singleton]
  · rw [hrec, supplierKpis_append_singleton]
    rfl
  · rw [hrec, supplierKpis_append_singleton]

/-- Witness for C10: a kaolin delivery arriving at a full 100-tonne container
is logged with zero tonnes delivered. -/
theorem C10_full_container_delivery_counted_witness :
    (deliveryArrival kaolinCfg "KaolinMine S.A." "kaolin" ['a', 'b', 'c']
      100 100 0 50 true).record.quantity_tonnes = 0 :=
  (C10_full_container_delivery_counted kaolinCfg "KaolinMine S.A." "kaolin"
    ['a', 'b', 'c'] 100 0 50 true [] (by norm_num [kaolinCfg])).2.1

/-- Helper: erasing the uuid-derived batch ids makes the batch log
independent of the entropy stream. -/
theorem buildBatchLogAux_strip (ds : List BatchDraw) :
    ∀ (i j : ℕ) (e1 e2 : ℕ → List Char),
      (buildBatchLogAux i ds e1).map stripBatchId
        = (buildBatchLogAux j ds e2).map stripBatchId := by
  induction ds with
  | nil => intro i j e1 e2; rfl
  | cons d tl ih =>
      intro i j e1 e2
      simp only [buildBatchLogAux, List.map_cons, stripBatchId_mk]
      rw [ih (i + 1) (j + 1) e1 e2]

/-- Helper: erasing the uuid-derived delivery ids makes the delivery log
independent of the entropy stream. -/
theorem buildDeliveryLogAux_strip (ds : List DeliveryDraw) :
    ∀ (i j : ℕ) (e1 e2 : ℕ → List Char),
      (buildDeliveryLogAux i ds e1).map stripDeliveryId
        = (buildDeliveryLogAux j ds e2).map stripDeliveryId := by
  induction ds with
  | nil => intro i j e1 e2; rfl
  | cons d tl ih =>
      intro i j e1 e2
      simp only [buildDeliveryLogAux, List.map_cons, stripDeliveryId_arrival]
      rw [ih (i + 1) (j + 1) e1 e2]

/-- Helper: the delivery-log length does not depend on the entropy stream. -/
theorem buildDeliveryLogAux_length (ds : List DeliveryDraw) :
    ∀ (i j : ℕ) (e1 e2 : ℕ → List Char),
      (buildDeliveryLogAux i ds e1).length = (buildDeliveryLogAux j ds e2).length := by
  induction ds with
  | nil => intro i j e1 e2; rfl
  | cons d tl ih =>
      intro i j e1 e2
      simp only [buildDeliveryLogAux, List.length_cons]
      rw [ih (i + 1) (j + 1) e1 e2]

/-- Helper: the delivery lead times do not depend on the entropy stream. -/
theorem buildDeliveryLogAux_lead (ds : List DeliveryDraw) :
    ∀ (i j : ℕ) (e1 e2 : ℕ → List Char),
      (buildDeliveryLogAux i ds e1).map SupplierDelivery.lead_time_hr
        = (buildDeliveryLogAux j ds e2).map SupplierDelivery.lead_time_hr := by
  induction ds with
  | nil => intro i j e1 e2; rfl
  | cons d tl ih =>
      intro i j e1 e2
      simp only [buildDeliveryLogAux, List.map_cons, deliveryArrival_record_lead]
      rw [ih (i + 1) (j + 1) e1 e2]

/-- Helper: the number of on-time deliveries does not depend on the entropy
stream. -/
theorem buildDeliveryLogAux_countP (ds : List DeliveryDraw) :
    ∀ (i j : ℕ) (e1 e2 : ℕ → List Char),
      (buildDeliveryLogAux i ds e1).countP (fun d => d.on_time)
        = (buildDeliveryLogAux j ds e2).countP (fun d => d.on_time) := by
  induction ds with
  | nil => intro i j e1 e2; rfl
  | cons d tl ih =>
      intro i j e1 e2
      simp only [buildDeliveryLogAux, List.countP_cons,
        deliveryArrival_record_on_time]
      rw [ih (i + 1) (j + 1) e1 e2]

/-- Helper: the supplier KPI block depends only on the delivery count, the
lead-time sum and the on-time count. -/
theorem supplierKpis_ext (l1 l2 : List SupplierDelivery)
    (hlen : l1.length = l2.length)
    (hsum : (l1.map SupplierDelivery.lead_time_hr).sum
      = (l2.map SupplierDelivery.lead_time_hr).sum)
    (hcount : l1.countP (fun d => d.on_time) = l2.countP (fun d => d.on_time)) :
    supplierKpis l1 = supplierKpis l2 := by
  have hempty : l1.isEmpty = l2.isEmpty := by
    cases l1 <;> cases l2 <;> first | rfl | simp_all
  unfold supplierKpis
  rw [hempty, hlen, hsum, hcount]

/-- Counterexample for C2: the claim that two runs with identical
(scenario, seed, config) agree on the generated identifier fields is false —
batch ids come from uuid4 (models.py lines 9-10, 17), i.e. from
operating-system entropy outside (scenario, seed, config), so two runs with
the same seeded draws but different entropy streams produce different batch
logs. -/
theorem C2_uuid_identifier_counterexample :
    buildBatchLog [{ product := "ONE-PIECE-STD", time := 10 }]
        (fun _ => ['a', 'a', 'a', 'a', 'a', 'a', 'a', 'a'])
      ≠ buildBatchLog [{ product := "ONE-PIECE-STD", time := 10 }]
        (fun _ => ['b', 'b', 'b', 'b', 'b', 'b', 'b', 'b']) := by
  intro h
  have hid : [shortId ['a', 'a', 'a', 'a', 'a', 'a', 'a', 'a']]
      = [shortId ['b', 'b', 'b', 'b', 'b', 'b', 'b', 'b']] :=
    congrArg (List.map ProductionBatch.batch_id) h
  exact absurd hid (by decide)

/-- Claim C2 as amended: for a fixed (scenario, seed, config) — i.e. a fixed
sequence of seeded draws — the batch and delivery logs of two runs agree on
every field except the uuid4-generated batch_id and delivery_id, the order
log (whose ORD-%04d ids never consume uuid entropy) agrees exactly, and KPIs
computed from the logs, which never read the id fields, agree exactly. -/
theorem C2_reproducible_modulo_uuid_ids (bd : List BatchDraw) (od : List OrderDraw)
    (dd : List DeliveryDraw) (e1 e2 : ℕ → List Char) :
    (buildBatchLog bd e1).map stripBatchId = (buildBatchLog bd e2).map stripBatchId
    ∧ buildOrderLog od e1 = buildOrderLog od e2
    ∧ (buildDeliveryLog dd e1).map stripDeliveryId
        = (buildDeliveryLog dd e2).map stripDeliveryId
    ∧ supplierKpis (buildDeliveryLog dd e1) = supplierKpis (buildDeliveryLog dd e2) :=
  ⟨buildBatchLogAux_strip bd 0 0 e1 e2, rfl, buildDeliveryLogAux_strip dd 0 0 e1 e2,
    supplierKpis_ext _ _ (buildDeliveryLogAux_length dd 0 0 e1 e2)
      (congrArg List.sum (buildDeliveryLogAux_lead dd 0 0 e1 e2))
      (buildDeliveryLogAux_countP dd 0 0 e1 e2)⟩

end Cerasim
